import Mathlib

/-!
# Verification of the `bankroll` instrument model

A shallow embedding of `bankroll/model/instrument.py` (the instrument value
types: `Instrument`, `Stock`, `Bond`, `Option`, `FutureOption`, `Future`,
`Forex`) together with proofs about its construction, validation, symbol
derivation, quantization, equality and ordering behaviour.

Python `decimal.Decimal` values are modelled as an integer mantissa with a
power-of-ten exponent plus the non-finite values; arithmetic is modelled
exactly (the default context's 28-significant-digit precision limit is not
modelled, and no call site here comes near it).  Construction is modelled as
`Except`-valued functions: a `raise` becomes `.error`.
-/

/- ### Decimal model -/

/-- Embedding of Python `decimal.Decimal`: a finite value `m * 10 ^ e`
(mantissa and exponent), or one of the non-finite values. -/
inductive Dec where
  | finite (m : Int) (e : Int)
  | posInf
  | negInf
  | nan
deriving DecidableEq

/-- `Decimal.is_finite()`. -/
def Dec.is_finite : Dec → Bool
  | .finite _ _ => true
  | _ => false

/-- The validation guard `strike.is_finite() and strike > 0` (lines 97, 99, 154
of `instrument.py` use its negation).  Python short-circuits, so `> 0` is never
evaluated on a non-finite value; a finite `m * 10 ^ e` is positive iff `0 < m`. -/
def Dec.isPosFinite : Dec → Bool
  | .finite m _ => 0 < m
  | _ => false

/-- Half-even division: the integer nearest to `m / d` (for `d > 0`), ties going
to the even integer.  This is the mantissa computation of `ROUND_HALF_EVEN`. -/
def rheDiv (m d : Int) : Int :=
  if 2 * Int.emod m d < d then Int.ediv m d
  else if d < 2 * Int.emod m d then Int.ediv m d + 1
  else if Int.emod (Int.ediv m d) 2 = 0 then Int.ediv m d else Int.ediv m d + 1

/-- Mantissa of `Decimal(m * 10 ^ e).quantize(Decimal(10 ^ (-k)))` under
`ROUND_HALF_EVEN`: the half-even rounding of `m * 10 ^ (e + k)` to an integer. -/
def quantMant (k : Nat) (m e : Int) : Int :=
  if 0 ≤ e + (k : Int) then m * 10 ^ (e + (k : Int)).toNat
  else rheDiv m (10 ^ (-(e + (k : Int))).toNat)

/-- `d.quantize(Decimal(10 ^ (-k)), rounding=ROUND_HALF_EVEN)`.  On non-finite
values Python raises `InvalidOperation`; every call site in the source quantizes
only values already validated finite, so that branch returns the input. -/
def Dec.quantize (k : Nat) : Dec → Dec
  | .finite m e => .finite (quantMant k m e) (-(k : Int))
  | d => d

/-- `Instrument.quantizeMultiplier` (lines 22-25): quantize to
`Decimal('0.1')` with `ROUND_HALF_EVEN`. -/
def quantizeMultiplier (d : Dec) : Dec := d.quantize 1

/-- `Option.quantizeStrike` (lines 82-85): quantize to `Decimal('0.001')` with
`ROUND_HALF_EVEN`. -/
def quantizeStrike (d : Dec) : Dec := d.quantize 3

/-- `strike * 1000` (line 110): exact Decimal-by-integer product. -/
def Dec.mul1000 : Dec → Dec
  | .finite m e => .finite (m * 1000) e
  | d => d

/-- Format specifier `.0f` applied to a finite Decimal: round to zero decimal
places with the context rounding (`ROUND_HALF_EVEN` by default), yielding an
integer.  Only reached on finite values in the source. -/
def dot0f : Dec → Int
  | .finite m e => quantMant 0 m e
  | _ => 0

/-- Numeric value of a finite Decimal as an exact rational (non-finite values,
never consulted by the theorems, map to 0). -/
def Dec.valQ : Dec → ℚ
  | .finite m e => (m : ℚ) * (10 : ℚ) ^ e
  | _ => 0

/- ### Strings, dates, enums -/

/-- Python `f"{s:6}"`-style padding: left-justified, filled with spaces to the
minimum width `w`.  A longer string is left untouched (never truncated). -/
def padRight (s : String) (w : Nat) : String :=
  s ++ String.mk (List.replicate (w - s.length) ' ')

/-- Python zero-fill to minimum width `w`, as in the format spec `08` applied
to a nonnegative number. -/
def zeroPad (s : String) (w : Nat) : String :=
  String.mk (List.replicate (w - s.length) '0') ++ s

/-- A two-digit zero-padded `strftime` field. -/
def pad2 (n : Nat) : String := if n < 10 then "0" ++ toString n else toString n

/-- Modelled from the spec: `Currency` lives in `bankroll/model/cash.py`, which
is not among the given sources.  §2 describes it as "an enumerated monetary
unit with a name"; members are enum values whose `.name` is the currency code
("USD", "EUR", ...).  A representative set of members suffices for the claims. -/
inductive Currency where
  | USD | EUR | GBP | JPY | CHF | AUD | CAD | NZD
deriving DecidableEq

/-- The enum member's `.name` (its code). -/
def Currency.name : Currency → String
  | .USD => "USD"
  | .EUR => "EUR"
  | .GBP => "GBP"
  | .JPY => "JPY"
  | .CHF => "CHF"
  | .AUD => "AUD"
  | .CAD => "CAD"
  | .NZD => "NZD"

/-- The `OptionType` enum (lines 72-75). -/
inductive OptionType where
  | PUT
  | CALL
deriving DecidableEq

/-- The enum member's `.value`: `'P'` or `'C'` (lines 74-75). -/
def OptionType.val : OptionType → String
  | .PUT => "P"
  | .CALL => "C"

/-- `datetime.date`: only the calendar fields matter to the source. -/
structure PyDate where
  year : Nat
  month : Nat
  day : Nat
deriving DecidableEq

/-- `expiration.strftime('%y%m%d')` (line 110): two-digit year (`year mod 100`),
month and day, each zero-padded to two digits. -/
def PyDate.yymmdd (d : PyDate) : String :=
  pad2 (d.year % 100) ++ pad2 d.month ++ pad2 d.day

/-- The derived OCC symbol (line 110):
`f"{underlying:6}{expiration.strftime('%y%m%d')}{optionType.value}{(strike * 1000):08.0f}"`.
Note the code formats the raw `strike` argument, not the quantized strike. -/
def occSymbol (underlying : String) (expiration : PyDate) (t : OptionType)
    (strike : Dec) : String :=
  padRight underlying 6 ++ expiration.yymmdd ++ t.val ++
    zeroPad (toString (dot0f strike.mul1000)) 8

/- ### Instruments -/

/-- The closed set of instrument classes; each constructor carries exactly the
attributes the corresponding Python object stores after a successful
construction. -/
inductive Instrument where
  | stock (symbol : String) (currency : Currency)
  | bond (symbol : String) (currency : Currency)
  | option (symbol : String) (currency : Currency) (underlying : String)
      (optionType : OptionType) (expiration : PyDate) (strike : Dec) (multiplier : Dec)
  | futureOption (symbol : String) (currency : Currency) (underlying : String)
      (optionType : OptionType) (expiration : PyDate) (strike : Dec) (multiplier : Dec)
  | future (symbol : String) (currency : Currency) (multiplier : Dec) (expiration : PyDate)
  | forex (symbol : String) (currency : Currency) (baseCurrency : Currency)
deriving DecidableEq

/-- The dynamic class of an instrument (`type(self)`). -/
inductive InstrumentKind where
  | stock | bond | option | futureOption | future | forex
deriving DecidableEq

def Instrument.kind : Instrument → InstrumentKind
  | .stock _ _ => .stock
  | .bond _ _ => .bond
  | .option _ _ _ _ _ _ _ => .option
  | .futureOption _ _ _ _ _ _ _ => .futureOption
  | .future _ _ _ _ => .future
  | .forex _ _ _ => .forex

/-- The base dataclass field `symbol` (line 19). -/
def Instrument.symbol : Instrument → String
  | .stock s _ | .bond s _ | .option s _ _ _ _ _ _ | .futureOption s _ _ _ _ _ _
  | .future s _ _ _ | .forex s _ _ => s

/-- The base dataclass field `currency` (line 20). -/
def Instrument.currency : Instrument → Currency
  | .stock _ c | .bond _ c | .option _ c _ _ _ _ _ | .futureOption _ c _ _ _ _ _
  | .future _ c _ _ | .forex _ c _ => c

/-- The `multiplier` property: `Decimal(1)` on the base (lines 33-35),
overridden with the stored quantized value by `Option`/`FutureOption`
(lines 130-132) and `Future` (lines 162-164). -/
def Instrument.multiplier : Instrument → Dec
  | .option _ _ _ _ _ _ m | .futureOption _ _ _ _ _ _ m | .future _ _ m _ => m
  | _ => .finite 1 0

/-- The `underlying` accessor (lines 114-116), where it exists. -/
def Instrument.underlying? : Instrument → Option String
  | .option _ _ u _ _ _ _ | .futureOption _ _ u _ _ _ _ => some u
  | _ => none

/-- The `optionType` accessor (lines 118-120), where it exists. -/
def Instrument.optionType? : Instrument → Option OptionType
  | .option _ _ _ t _ _ _ | .futureOption _ _ _ t _ _ _ => some t
  | _ => none

/-- The `expiration` accessor (lines 122-124, 166-168), where it exists. -/
def Instrument.expiration? : Instrument → Option PyDate
  | .option _ _ _ _ d _ _ | .futureOption _ _ _ _ d _ _ => some d
  | .future _ _ _ d => some d
  | _ => none

/-- The `strike` accessor (lines 126-128), where it exists. -/
def Instrument.strike? : Instrument → Option Dec
  | .option _ _ _ _ _ k _ | .futureOption _ _ _ _ _ k _ => some k
  | _ => none

/-- The `Forex.baseCurrency` accessor (lines 189-191), where it exists. -/
def Instrument.baseCurrency? : Instrument → Option Currency
  | .forex _ _ b => some b
  | _ => none

/-- The `Forex.quoteCurrency` accessor (lines 185-187): it returns the
inherited `currency` field. -/
def Instrument.quoteCurrency? : Instrument → Option Currency
  | .forex _ c _ => some c
  | _ => none

/-- `__str__` (lines 43-44): the canonical short-text rendering is the symbol. -/
def Instrument.pyStr (i : Instrument) : String := i.symbol

/- ### Equality, hashing, ordering -/

/-- The dataclass-generated `__eq__` inherited by every class here: the two
objects must have the same dynamic class and equal tuples of declared dataclass
fields, which for every instrument class is `(symbol, currency)`.  `Option`'s
extra attributes are plain instance attributes, not dataclass fields, and do
not participate. -/
def pyEq (a b : Instrument) : Bool :=
  a.kind == b.kind && a.symbol == b.symbol && a.currency == b.currency

/-- The tuple the dataclass-generated `__hash__` hashes: the declared fields
`(symbol, currency)`.  The dynamic class is not part of it. -/
def pyHashKey (i : Instrument) : String × Currency := (i.symbol, i.currency)

/-- Python string comparison: lexicographic on the code-point sequence. -/
def charListLt : List Char → List Char → Bool
  | [], [] => false
  | [], _ :: _ => true
  | _ :: _, [] => false
  | a :: as, b :: bs => if a < b then true else if b < a then false else charListLt as bs

/-- `a < b` on Python strings. -/
def strLt (a b : String) : Bool := charListLt a.data b.data

/-- `Instrument.__lt__` (lines 37-38): compares symbols only. -/
def pyLt (a b : Instrument) : Bool := strLt a.symbol b.symbol

/-- `__le__` as filled in by `functools.total_ordering` from `__lt__` and
`__eq__`: `a < b or a == b`. -/
def pyLe (a b : Instrument) : Bool := pyLt a b || pyEq a b

/-- `__gt__` as filled in by `functools.total_ordering`: `not (a < b) and a != b`. -/
def pyGt (a b : Instrument) : Bool := !pyLt a b && !pyEq a b

/-- `__ge__` as filled in by `functools.total_ordering`: `not (a < b)`. -/
def pyGe (a b : Instrument) : Bool := !pyLt a b

/- ### Construction -/

/-- Construction-time failures.  Each constructor corresponds to one `raise`
site of the source (all `ValueError`s carrying the offending value), except
`attributeNoneName`, which models the `AttributeError` Python raises when
`Forex.__init__` evaluates `.name` on a `None` currency (line 182). -/
inductive ConstructionError where
  | emptySymbol
  | missingCurrency
  | invalidCUSIP (symbol : String)
  | emptyUnderlying
  | invalidStrike (strike : Dec)
  | invalidMultiplier (multiplier : Dec)
  | identicalForexCurrencies (base : Option Currency) (quote : Option Currency)
  | attributeNoneName
deriving DecidableEq

/-- Whether the failure is one of the declared validation failures (§7 of the
spec, each a `ValueError` in the source), as opposed to a crash. -/
def ConstructionError.isValidation : ConstructionError → Bool
  | .attributeNoneName => false
  | _ => true

/-- `Instrument.__post_init__` (lines 27-31): empty symbol is rejected first,
then a missing (`None`) currency; on success the currency is known present. -/
def checkBase (symbol : String) (currency : Option Currency) :
    Except ConstructionError Currency :=
  if symbol = "" then .error .emptySymbol
  else
    match currency with
    | none => .error .missingCurrency
    | some c => .ok c

/-- `Stock` (lines 48-50): base behaviour only. -/
def mkStock (symbol : String) (currency : Option Currency) :
    Except ConstructionError Instrument :=
  (checkBase symbol currency).map fun c => .stock symbol c

/-- One character of `[0-9]`. -/
def isDigitChar (c : Char) : Bool := '0' ≤ c && c ≤ '9'

/-- One character of `[0-9A-Z]`. -/
def isCusipBody (c : Char) : Bool := isDigitChar c || ('A' ≤ c && c ≤ 'Z')

/-- Exactly nine characters matching `[0-9]{3}[0-9A-Z]{5}[0-9]`. -/
def cusipChars : List Char → Bool
  | [c0, c1, c2, c3, c4, c5, c6, c7, c8] =>
      isDigitChar c0 && isDigitChar c1 && isDigitChar c2 &&
      isCusipBody c3 && isCusipBody c4 && isCusipBody c5 &&
      isCusipBody c6 && isCusipBody c7 && isDigitChar c8
  | _ => false

/-- `Bond.validBondSymbol` (lines 59-61):
`re.match(r'^[0-9]{3}[0-9A-Z]{5}[0-9]$', symbol) is not None`.  In Python `re`,
`$` matches at the end of the string and also just before a newline at the end,
so a valid CUSIP followed by one trailing `'\n'` also matches. -/
def validBondSymbol (s : String) : Bool :=
  cusipChars s.data || (s.data.getLast? == some '\n' && cusipChars s.data.dropLast)

/-- `Bond` (lines 53-69): the CUSIP check of `Bond.__post_init__` runs before
the base `__post_init__` checks; `validateSymbol` defaults to `True`. -/
def mkBond (symbol : String) (currency : Option Currency)
    (validateSymbol : Bool := true) : Except ConstructionError Instrument :=
  if validateSymbol && !validBondSymbol symbol then .error (.invalidCUSIP symbol)
  else (checkBase symbol currency).map fun c => .bond symbol c

/-- `Option.__init__` (lines 87-112), shared by `Option` and `FutureOption`
(which forwards to it); `fo` records the dynamic class of `self`.  Validation
order: empty underlying, non-positive-or-non-finite strike, then multiplier;
the strike and multiplier are stored quantized; the symbol is derived (from the
raw strike) only when `None` was supplied; finally `Instrument.__init__` runs
the base checks. -/
def mkOptionAs (fo : Bool) (underlying : String) (currency : Option Currency)
    (optionType : OptionType) (expiration : PyDate) (strike : Dec)
    (multiplier : Dec) (symbol : Option String) : Except ConstructionError Instrument :=
  if underlying = "" then .error .emptyUnderlying
  else if !strike.isPosFinite then .error (.invalidStrike strike)
  else if !multiplier.isPosFinite then .error (.invalidMultiplier multiplier)
  else
    let sym :=
      match symbol with
      | none => occSymbol underlying expiration optionType strike
      | some s => s
    (checkBase sym currency).map fun c =>
      if fo then
        .futureOption sym c underlying optionType expiration (quantizeStrike strike)
          (quantizeMultiplier multiplier)
      else
        .option sym c underlying optionType expiration (quantizeStrike strike)
          (quantizeMultiplier multiplier)

/-- `Option(...)`, with the Python defaults `multiplier=Decimal(100)`,
`symbol=None`. -/
def mkOption (underlying : String) (currency : Option Currency)
    (optionType : OptionType) (expiration : PyDate) (strike : Dec)
    (multiplier : Dec := .finite 100 0) (symbol : Option String := none) :
    Except ConstructionError Instrument :=
  mkOptionAs false underlying currency optionType expiration strike multiplier symbol

/-- `FutureOption` (lines 138-148): forwards every argument to
`Option.__init__` with the caller's mandatory `symbol`. -/
def mkFutureOption (symbol : String) (underlying : String)
    (currency : Option Currency) (optionType : OptionType) (expiration : PyDate)
    (strike : Dec) (multiplier : Dec) : Except ConstructionError Instrument :=
  mkOptionAs true underlying currency optionType expiration strike multiplier (some symbol)

/-- `Future` (lines 151-160). -/
def mkFuture (symbol : String) (currency : Option Currency) (multiplier : Dec)
    (expiration : PyDate) : Except ConstructionError Instrument :=
  if !multiplier.isPosFinite then .error (.invalidMultiplier multiplier)
  else (checkBase symbol currency).map fun c =>
    .future symbol c (quantizeMultiplier multiplier) expiration

/-- `Forex` (lines 174-183).  The equality test also fires on two `None`
arguments (Python `None == None`); otherwise the f-string evaluates
`baseCurrency.name` then `quoteCurrency.name`, raising `AttributeError` on a
`None` before the base validations can run; the quote currency is what the base
`currency` field stores. -/
def mkForex (baseCurrency : Option Currency) (quoteCurrency : Option Currency) :
    Except ConstructionError Instrument :=
  if baseCurrency = quoteCurrency then
    .error (.identicalForexCurrencies baseCurrency quoteCurrency)
  else
    match baseCurrency, quoteCurrency with
    | none, _ => .error .attributeNoneName
    | _, none => .error .attributeNoneName
    | some b, some q =>
        (checkBase (b.name ++ q.name) (some q)).map fun c => .forex (b.name ++ q.name) c b

/- ### Spec-side definitions (for refinement comparisons) -/

/-- Half-even ("banker's") rounding of a rational to the nearest integer,
stated the way the spec words it (glossary, §4.1): nearest integer, a tie
going to the even one. -/
def rheQ (q : ℚ) : ℤ :=
  if q - ⌊q⌋ < 1 / 2 then ⌊q⌋
  else if (1 : ℚ) / 2 < q - ⌊q⌋ then ⌊q⌋ + 1
  else if Int.emod ⌊q⌋ 2 = 0 then ⌊q⌋ else ⌊q⌋ + 1

/-- The spec's quantization, on exact rationals: "rounds ... to the nearest
`10 ^ (-k)` step using round-half-to-even". -/
def specRound (k : Nat) (q : ℚ) : ℚ :=
  (rheQ (q * (10 : ℚ) ^ k) : ℚ) / (10 : ℚ) ^ k

/-- The symbol-derivation formula exactly as claim C1 words it: underlying
padded/truncated to exactly six characters, then date, type character and the
quantized-strike-times-1000 integer zero-padded to eight digits.  Compare
`occSymbol`, which never truncates the underlying. -/
def claimOccSymbol (underlying : String) (expiration : PyDate) (t : OptionType)
    (strikeTimes1000 : Int) : String :=
  padRight (String.mk (underlying.data.take 6)) 6 ++ expiration.yymmdd ++ t.val ++
    zeroPad (toString strikeTimes1000) 8

/-- All observable fields of an instrument, for comparing `Option` and
`FutureOption` construction outcomes field by field. -/
def instrFields (i : Instrument) :
    String × Currency × Option String × Option OptionType × Option PyDate × Option Dec × Dec :=
  (i.symbol, i.currency, i.underlying?, i.optionType?, i.expiration?, i.strike?, i.multiplier)

/- ### Rounding refinement lemmas -/

/-- Half-even rounding of an integer is the integer itself. -/
theorem rheQ_intCast (z : ℤ) : rheQ (z : ℚ) = z := by
  simp [rheQ, Int.floor_intCast]

/-- The integer half-even division realizes the rational half-even rounding of
the exact quotient. -/
theorem rheDiv_eq_rheQ (m d : Int) (hd : 0 < d) :
    rheDiv m d = rheQ ((m : ℚ) / (d : ℚ)) := by
  have hd' : (0 : ℚ) < (d : ℚ) := by exact_mod_cast hd
  have hne : d ≠ 0 := ne_of_gt hd
  have hr0 : 0 ≤ Int.emod m d := Int.emod_nonneg m hne
  have hrd : Int.emod m d < d := Int.emod_lt_of_pos m hd
  have key : d * Int.ediv m d + Int.emod m d = m := Int.ediv_add_emod m d
  have keyQ : (d : ℚ) * (Int.ediv m d : ℚ) + (Int.emod m d : ℚ) = (m : ℚ) := by
    exact_mod_cast key
  have hr0Q : (0 : ℚ) ≤ (Int.emod m d : ℚ) := by exact_mod_cast hr0
  have hrdQ : (Int.emod m d : ℚ) < (d : ℚ) := by exact_mod_cast hrd
  have hfl : ⌊(m : ℚ) / (d : ℚ)⌋ = Int.ediv m d := by
    rw [Int.floor_eq_iff]
    constructor
    · rw [le_div_iff₀ hd']
      nlinarith
    · rw [div_lt_iff₀ hd']
      nlinarith
  have hfrac : (m : ℚ) / (d : ℚ) - (Int.ediv m d : ℚ) = (Int.emod m d : ℚ) / (d : ℚ) := by
    field_simp
    linarith
  have f1 : ((Int.emod m d : ℚ) / (d : ℚ) < 1 / 2) ↔ (2 * Int.emod m d < d) := by
    rw [div_lt_iff₀ hd']
    constructor
    · intro h
      have h2 : (2 * Int.emod m d : ℚ) < (d : ℚ) := by linarith
      exact_mod_cast h2
    · intro h
      have h2 : (2 * Int.emod m d : ℚ) < (d : ℚ) := by exact_mod_cast h
      linarith
  have f2 : ((1 : ℚ) / 2 < (Int.emod m d : ℚ) / (d : ℚ)) ↔ (d < 2 * Int.emod m d) := by
    rw [lt_div_iff₀ hd']
    constructor
    · intro h
      have h2 : (d : ℚ) < (2 * Int.emod m d : ℚ) := by linarith
      exact_mod_cast h2
    · intro h
      have h2 : (d : ℚ) < (2 * Int.emod m d : ℚ) := by exact_mod_cast h
      linarith
  unfold rheDiv rheQ
  simp only [hfl, hfrac, f1, f2]

/-- The quantization mantissa is the half-even rounding of the exact value
scaled by `10 ^ k`. -/
theorem quantMant_eq_rheQ (k : Nat) (m e : Int) :
    quantMant k m e = rheQ ((m : ℚ) * (10 : ℚ) ^ (e + (k : Int))) := by
  unfold quantMant
  split_ifs with h
  · have hcast : ((m * 10 ^ (e + (k : Int)).toNat : Int) : ℚ) =
        (m : ℚ) * (10 : ℚ) ^ (e + (k : Int)) := by
      push_cast
      rw [← zpow_natCast (10 : ℚ) (e + (k : Int)).toNat, Int.toNat_of_nonneg h]
    rw [← hcast, rheQ_intCast]
  · have hs : 0 ≤ -(e + (k : Int)) := by omega
    have hpow : (0 : Int) < 10 ^ (-(e + (k : Int))).toNat := by positivity
    rw [rheDiv_eq_rheQ _ _ hpow]
    congr 1
    have hcast : ((10 ^ (-(e + (k : Int))).toNat : Int) : ℚ) = (10 : ℚ) ^ (-(e + (k : Int))) := by
      push_cast
      rw [← zpow_natCast (10 : ℚ) (-(e + (k : Int))).toNat, Int.toNat_of_nonneg hs]
    rw [hcast, div_eq_mul_inv, ← zpow_neg, neg_neg]

/-- Refinement of `Decimal.quantize` against the spec's wording: the value of a
quantized finite Decimal is its exact value rounded to the nearest `10 ^ (-k)`
step, half to even. -/
theorem quantize_valQ (k : Nat) (m e : Int) :
    (Dec.quantize k (.finite m e)).valQ = specRound k ((Dec.finite m e).valQ) := by
  have hne : (10 : ℚ) ≠ 0 := by norm_num
  have harg : ((m : ℚ) * (10 : ℚ) ^ e) * (10 : ℚ) ^ (k : Nat) =
      (m : ℚ) * (10 : ℚ) ^ (e + (k : Int)) := by
    rw [zpow_add₀ hne, ← zpow_natCast (10 : ℚ) k]
    ring
  show ((quantMant k m e : ℤ) : ℚ) * (10 : ℚ) ^ (-(k : Int)) =
    specRound k ((m : ℚ) * (10 : ℚ) ^ e)
  rw [quantMant_eq_rheQ k m e, specRound, harg, zpow_neg, div_eq_mul_inv, zpow_natCast]

/-- Formatting `strike * 1000` with `.0f` produces the same integer as the
mantissa of the strike quantized to `0.001`: the two rounding routes (line 110
uses the raw strike, line 105 the quantized one) agree. -/
theorem quantMant_mul1000 (m e : Int) : quantMant 0 (m * 1000) e = quantMant 3 m e := by
  rw [quantMant_eq_rheQ, quantMant_eq_rheQ]
  congr 1
  push_cast
  rw [zpow_add₀ (by norm_num : (10 : ℚ) ≠ 0) e (3 : Int)]
  norm_num
  ring

/- ### Helper lemmas: construction shapes, ordering, nonnegativity -/

theorem checkBase_some (s : String) (c : Currency) (hs : s ≠ "") :
    checkBase s (some c) = .ok c := by
  simp [checkBase, hs]

theorem occSymbol_length (u : String) (d : PyDate) (t : OptionType) (k : Dec) :
    6 ≤ (occSymbol u d t k).length := by
  rw [occSymbol, padRight]
  simp [String.length_append]
  omega

theorem occSymbol_ne_empty (u : String) (d : PyDate) (t : OptionType) (k : Dec) :
    occSymbol u d t k ≠ "" := by
  intro h
  have hlen := occSymbol_length u d t k
  rw [h] at hlen
  simp at hlen

theorem mkOptionAs_none (fo : Bool) (u : String) (co : Option Currency)
    (t : OptionType) (d : PyDate) (k mult : Dec)
    (hu : u ≠ "") (hk : k.isPosFinite = true) (hm : mult.isPosFinite = true) :
    mkOptionAs fo u co t d k mult none =
      (checkBase (occSymbol u d t k) co).map fun c =>
        if fo then
          .futureOption (occSymbol u d t k) c u t d (quantizeStrike k) (quantizeMultiplier mult)
        else
          .option (occSymbol u d t k) c u t d (quantizeStrike k) (quantizeMultiplier mult) := by
  unfold mkOptionAs
  simp [hu, hk, hm]

theorem mkOptionAs_some (fo : Bool) (u : String) (co : Option Currency)
    (t : OptionType) (d : PyDate) (k mult : Dec) (s : String)
    (hu : u ≠ "") (hk : k.isPosFinite = true) (hm : mult.isPosFinite = true) :
    mkOptionAs fo u co t d k mult (some s) =
      (checkBase s co).map fun c =>
        if fo then
          .futureOption s c u t d (quantizeStrike k) (quantizeMultiplier mult)
        else
          .option s c u t d (quantizeStrike k) (quantizeMultiplier mult) := by
  unfold mkOptionAs
  simp [hu, hk, hm]

theorem rheQ_nonneg (q : ℚ) (hq : 0 ≤ q) : 0 ≤ rheQ q := by
  unfold rheQ
  have h : 0 ≤ ⌊q⌋ := Int.floor_nonneg.mpr hq
  split_ifs <;> omega

theorem quantMant_nonneg (k : Nat) (m e : Int) (hm : 0 ≤ m) : 0 ≤ quantMant k m e := by
  rw [quantMant_eq_rheQ]
  apply rheQ_nonneg
  have h1 : (0 : ℚ) ≤ (m : ℚ) := by exact_mod_cast hm
  positivity

theorem charListLt_irrefl (l : List Char) : charListLt l l = false := by
  induction l with
  | nil => rfl
  | cons a as ih => simp [charListLt, ih]

theorem charListLt_trans {a b c : List Char} (h1 : charListLt a b = true)
    (h2 : charListLt b c = true) : charListLt a c = true := by
  induction a generalizing b c with
  | nil =>
    cases c with
    | nil =>
      cases b with
      | nil => exact h1
      | cons y ys => simp [charListLt] at h2
    | cons z zs => rfl
  | cons x xs ih =>
    cases b with
    | nil => simp [charListLt] at h1
    | cons y ys =>
      cases c with
      | nil => simp [charListLt] at h2
      | cons z zs =>
        rw [charListLt] at h1 h2 ⊢
        by_cases hxy : x < y
        · by_cases hyz : y < z
          · simp [lt_trans hxy hyz]
          · by_cases hzy : z < y
            · simp [hyz, hzy] at h2
            · have hyzeq : y = z := le_antisymm (not_lt.mp hzy) (not_lt.mp hyz)
              subst hyzeq
              simp [hxy]
        · by_cases hyx : y < x
          · simp [hxy, hyx] at h1
          · have hxyeq : x = y := le_antisymm (not_lt.mp hyx) (not_lt.mp hxy)
            subst hxyeq
            simp [lt_irrefl] at h1
            by_cases hxz : x < z
            · simp [hxz]
            · by_cases hzx : z < x
              · simp [hxz, hzx] at h2
              · have hxzeq : x = z := le_antisymm (not_lt.mp hzx) (not_lt.mp hxz)
                subst hxzeq
                simp [lt_irrefl] at h2 ⊢
                exact ih h1 h2

theorem charListLt_asymm_eq {a b : List Char} (h1 : charListLt a b = false)
    (h2 : charListLt b a = false) : a = b := by
  induction a generalizing b with
  | nil =>
    cases b with
    | nil => rfl
    | cons y ys => simp [charListLt] at h1
  | cons x xs ih =>
    cases b with
    | nil => simp [charListLt] at h2
    | cons y ys =>
      rw [charListLt] at h1 h2
      by_cases hxy : x < y
      · simp [hxy] at h1
      · by_cases hyx : y < x
        · simp [hxy, hyx] at h2
        · have hxyeq : x = y := le_antisymm (not_lt.mp hyx) (not_lt.mp hxy)
          subst hxyeq
          simp [lt_irrefl] at h1 h2
          rw [ih h1 h2]

theorem strLt_symbol_eq {a b : String} (h1 : strLt a b = false) (h2 : strLt b a = false) :
    a = b :=
  String.ext (charListLt_asymm_eq h1 h2)

/-- A string all of whose characters pass the base checks is accepted by the
base constructor shape: `checkBase` on an empty symbol, for any currency. -/
theorem checkBase_empty (co : Option Currency) : checkBase "" co = .error .emptySymbol := rfl

/-- `checkBase` on a missing currency with a non-empty symbol. -/
theorem checkBase_none (s : String) (hs : s ≠ "") :
    checkBase s none = .error .missingCurrency := by
  simp [checkBase, hs]

/-- A finite Decimal's value is nonpositive exactly when its mantissa is. -/
theorem valQ_nonpos_iff (m e : Int) : (Dec.finite m e).valQ ≤ 0 ↔ m ≤ 0 := by
  show (m : ℚ) * (10 : ℚ) ^ e ≤ 0 ↔ m ≤ 0
  have hp : (0 : ℚ) < (10 : ℚ) ^ e := by positivity
  constructor
  · intro h
    by_contra hm
    push_neg at hm
    have hmQ : (0 : ℚ) < (m : ℚ) := by exact_mod_cast hm
    nlinarith
  · intro h
    have hmQ : (m : ℚ) ≤ 0 := by exact_mod_cast h
    nlinarith

/- ### Claim C1: OCC symbol derivation -/

/-- C1 (amended): for every Option constructed without an explicit symbol from
a non-empty underlying, a finite positive strike and a positive finite
multiplier, the derived symbol is the concatenation, with no separator, of the
underlying left-justified and space-padded to a minimum of 6 characters (a
longer underlying is not truncated), the expiration as 2-digit year, month and
day, the option-type character, and the quantized strike times 1000 as an
integer zero-padded to a minimum of 8 digits. -/
theorem c1_amended_symbol_derivation (u : String) (c : Currency) (t : OptionType)
    (d : PyDate) (m e : Int) (mult : Dec)
    (hu : u ≠ "") (hm : 0 < m) (hmult : mult.isPosFinite = true) :
    mkOption u (some c) t d (.finite m e) mult none =
      .ok (.option
        (padRight u 6 ++ d.yymmdd ++ t.val ++ zeroPad (toString (quantMant 3 m e)) 8)
        c u t d (.finite (quantMant 3 m e) (-3)) (quantizeMultiplier mult)) := by
  have hk : (Dec.finite m e).isPosFinite = true := by simp [Dec.isPosFinite, hm]
  rw [mkOption, mkOptionAs_none false u (some c) t d _ mult hu hk hmult,
      checkBase_some _ c (occSymbol_ne_empty u d t _)]
  simp only [Except.map, if_neg Bool.false_ne_true]
  rw [occSymbol]
  simp only [dot0f, Dec.mul1000, quantMant_mul1000]
  rfl

/-- C1 (counterexample): the claim's "padded/truncated to exactly 6
characters" is false — a 7-character underlying is not truncated by the code:
the derived symbol keeps all 7 characters, while the claim's formula would cut
it to "ABCDEF".  (The claimed AAPL round-trip itself holds; see the witness.) -/
theorem c1_counterexample :
    (mkOption "ABCDEFG" (some .USD) .PUT ⟨2021, 1, 15⟩ (.finite 15000 (-2))
        (.finite 100 0) none).map Instrument.symbol = .ok "ABCDEFG210115P00150000" ∧
    "ABCDEFG210115P00150000" ≠ claimOccSymbol "ABCDEFG" ⟨2021, 1, 15⟩ .PUT 150000 ∧
    claimOccSymbol "ABCDEFG" ⟨2021, 1, 15⟩ .PUT 150000 = "ABCDEF210115P00150000" ∧
    quantizeStrike (.finite 15000 (-2)) = .finite 150000 (-3) :=
  ⟨rfl, by decide, rfl, rfl⟩

/-- C1 (witness): the claimed example Option(AAPL, USD, PUT, 2021-01-15,
150.00) derives the symbol "AAPL  210115P00150000". -/
theorem c1_witness :
    mkOption "AAPL" (some .USD) .PUT ⟨2021, 1, 15⟩ (.finite 15000 (-2)) (.finite 100 0) none =
      .ok (.option "AAPL  210115P00150000" .USD "AAPL" .PUT ⟨2021, 1, 15⟩
        (.finite 150000 (-3)) (.finite 1000 (-1))) := by
  have h := c1_amended_symbol_derivation "AAPL" .USD .PUT ⟨2021, 1, 15⟩ 15000 (-2)
    (.finite 100 0) (by decide) (by decide) (by decide)
  rw [h]
  rfl

/- ### Claim C2: Option construction invariants -/

/-- C2 (counterexample): the claim's "stored (quantized) strike is finite and
strictly greater than 0" is false — strike 0.0004 passes the input validation
(finite and positive) but quantizes to 0.000, which is not strictly positive. -/
theorem c2_counterexample :
    mkOption "AAPL" (some .USD) .PUT ⟨2021, 1, 15⟩ (.finite 4 (-4)) (.finite 100 0) none =
      .ok (.option "AAPL  210115P00000000" .USD "AAPL" .PUT ⟨2021, 1, 15⟩
        (.finite 0 (-3)) (.finite 1000 (-1))) ∧
    (Dec.finite 4 (-4)).isPosFinite = true ∧
    (Dec.finite 0 (-3)).isPosFinite = false ∧
    (Dec.finite 0 (-3)).valQ = 0 :=
  ⟨rfl, rfl, rfl, by norm_num [Dec.valQ]⟩

/-- C2 (amended): every successfully constructed Option stores its non-empty
underlying unchanged, and stores a strike and multiplier that are finite and
nonnegative (the quantized mantissas are at least 0); strict positivity of the
stored values is not an invariant, since inputs below half a quantization step
quantize to zero. -/
theorem c2_amended_invariants (u : String) (c : Currency) (t : OptionType)
    (d : PyDate) (m e m2 e2 : Int) (so : Option String)
    (hu : u ≠ "") (hm : 0 < m) (hm2 : 0 < m2)
    (hso : ∀ s, so = some s → s ≠ "") :
    (mkOption u (some c) t d (.finite m e) (.finite m2 e2) so).map
        (fun i => (i.underlying?, i.strike?, i.multiplier)) =
      .ok (some u, some (.finite (quantMant 3 m e) (-3)), .finite (quantMant 1 m2 e2) (-1)) ∧
    0 ≤ quantMant 3 m e ∧ 0 ≤ quantMant 1 m2 e2 ∧
    (Dec.finite (quantMant 3 m e) (-3)).is_finite = true ∧
    (Dec.finite (quantMant 1 m2 e2) (-1)).is_finite = true := by
  have hk : (Dec.finite m e).isPosFinite = true := by simp [Dec.isPosFinite, hm]
  have hmu : (Dec.finite m2 e2).isPosFinite = true := by simp [Dec.isPosFinite, hm2]
  refine ⟨?_, quantMant_nonneg 3 m e (le_of_lt hm), quantMant_nonneg 1 m2 e2 (le_of_lt hm2),
    rfl, rfl⟩
  cases so with
  | none =>
    rw [mkOption, mkOptionAs_none false u (some c) t d _ _ hu hk hmu,
        checkBase_some _ c (occSymbol_ne_empty u d t _)]
    rfl
  | some s =>
    rw [mkOption, mkOptionAs_some false u (some c) t d _ _ s hu hk hmu,
        checkBase_some _ c (hso s rfl)]
    rfl

/-- C2 (witness): a concrete valid construction, with the stored quantized
strike and multiplier evaluated and nonnegative. -/
theorem c2_witness :
    (mkOption "AAPL" (some .USD) .PUT ⟨2021, 1, 15⟩ (.finite 15000 (-2)) (.finite 100 0)
        none).map (fun i => (i.underlying?, i.strike?, i.multiplier)) =
      .ok (some "AAPL", some (.finite 150000 (-3)), .finite 1000 (-1)) ∧
    (0 : Int) ≤ 150000 ∧ (0 : Int) ≤ 1000 := by
  have h := c2_amended_invariants "AAPL" .USD .PUT ⟨2021, 1, 15⟩ 15000 (-2) 100 0 none
    (by decide) (by decide) (by decide) (fun s hs => Option.noConfusion hs)
  exact ⟨h.1, by decide, by decide⟩

/- ### Claim C3: structural equality and hashing -/

/-- C3 (counterexample): equality is not structural over all fields — two
Options constructed from identical inputs except for the multiplier (100
versus 50) compare equal under the inherited dataclass equality and hash over
the same key, although they are different objects with different multipliers. -/
theorem c3_counterexample :
    mkOption "AAPL" (some .USD) .PUT ⟨2021, 1, 15⟩ (.finite 150 0) (.finite 100 0) none =
      .ok (.option "AAPL  210115P00150000" .USD "AAPL" .PUT ⟨2021, 1, 15⟩
        (.finite 150000 (-3)) (.finite 1000 (-1))) ∧
    mkOption "AAPL" (some .USD) .PUT ⟨2021, 1, 15⟩ (.finite 150 0) (.finite 50 0) none =
      .ok (.option "AAPL  210115P00150000" .USD "AAPL" .PUT ⟨2021, 1, 15⟩
        (.finite 150000 (-3)) (.finite 500 (-1))) ∧
    pyEq
      (.option "AAPL  210115P00150000" .USD "AAPL" .PUT ⟨2021, 1, 15⟩
        (.finite 150000 (-3)) (.finite 1000 (-1)))
      (.option "AAPL  210115P00150000" .USD "AAPL" .PUT ⟨2021, 1, 15⟩
        (.finite 150000 (-3)) (.finite 500 (-1))) = true ∧
    pyHashKey
      (.option "AAPL  210115P00150000" .USD "AAPL" .PUT ⟨2021, 1, 15⟩
        (.finite 150000 (-3)) (.finite 1000 (-1))) =
    pyHashKey
      (.option "AAPL  210115P00150000" .USD "AAPL" .PUT ⟨2021, 1, 15⟩
        (.finite 150000 (-3)) (.finite 500 (-1))) ∧
    (Instrument.option "AAPL  210115P00150000" .USD "AAPL" .PUT ⟨2021, 1, 15⟩
        (.finite 150000 (-3)) (.finite 1000 (-1))) ≠
      (.option "AAPL  210115P00150000" .USD "AAPL" .PUT ⟨2021, 1, 15⟩
        (.finite 150000 (-3)) (.finite 500 (-1))) ∧
    (Instrument.option "AAPL  210115P00150000" .USD "AAPL" .PUT ⟨2021, 1, 15⟩
        (.finite 150000 (-3)) (.finite 1000 (-1))).multiplier ≠
      (Instrument.option "AAPL  210115P00150000" .USD "AAPL" .PUT ⟨2021, 1, 15⟩
        (.finite 150000 (-3)) (.finite 500 (-1))).multiplier :=
  ⟨rfl, rfl, by decide, rfl, by decide, by decide⟩

/-- C3 (amended): equality is structural over the base dataclass fields only —
two instruments are equal iff they are of the same class and agree on symbol
and currency; equal instruments hash over equal keys; and equality is
reflexive, so constructing twice from identical inputs (a deterministic
function) yields equal instances.  Option's underlying, type, expiration,
strike and multiplier do not participate in equality. -/
theorem c3_amended_structural_eq :
    (∀ a b : Instrument, pyEq a b = true ↔
      (a.kind = b.kind ∧ a.symbol = b.symbol ∧ a.currency = b.currency)) ∧
    (∀ a b : Instrument, pyEq a b = true → pyHashKey a = pyHashKey b) ∧
    (∀ a : Instrument, pyEq a a = true) := by
  refine ⟨fun a b => ?_, fun a b h => ?_, fun a => ?_⟩
  · simp [pyEq, and_assoc]
  · simp only [pyEq, Bool.and_eq_true, beq_iff_eq] at h
    simp [pyHashKey, h.1.2, h.2]
  · simp [pyEq]

/-- C3 (witness): the amended equality applied at a concrete instrument. -/
theorem c3_witness :
    pyEq (Instrument.stock "A" .USD) (Instrument.stock "A" .USD) = true ∧
    pyHashKey (Instrument.stock "A" .USD) = pyHashKey (Instrument.stock "A" .USD) :=
  ⟨(c3_amended_structural_eq.1 _ _).mpr ⟨rfl, rfl, rfl⟩,
   c3_amended_structural_eq.2.1 _ _ (by decide)⟩

/- ### Claim C4: Bond CUSIP validation -/

/-- C4 (counterexample): the empty string does not match the CUSIP pattern,
yet Bond construction with validation disabled does not succeed — it fails the
base empty-symbol check.  (With validation enabled it fails with the CUSIP
error, as the claim says.) -/
theorem c4_counterexample :
    validBondSymbol "" = false ∧
    mkBond "" (some .USD) false = .error .emptySymbol ∧
    mkBond "" (some .USD) true = .error (.invalidCUSIP "") :=
  ⟨rfl, rfl, rfl⟩

/-- C4 (amended): for every non-empty symbol rejected by the code's CUSIP
match (Python `re.match` semantics, under which a valid CUSIP followed by one
trailing newline also matches because of `$`), construction with validation
enabled fails with the CUSIP validation error naming the offending symbol, and
construction with the same symbol, a present currency and validation disabled
succeeds. -/
theorem c4_amended_bond_validation (s : String) (c : Currency)
    (hs : validBondSymbol s = false) (hne : s ≠ "") :
    mkBond s (some c) true = .error (.invalidCUSIP s) ∧
    mkBond s (some c) false = .ok (.bond s c) := by
  constructor
  · simp [mkBond, hs]
  · rw [mkBond]
    simp only [Bool.false_and, if_neg Bool.false_ne_true]
    rw [checkBase_some s c hne]
    rfl

/-- C4 (witness): the amended Bond validation at symbol "XYZ". -/
theorem c4_witness :
    validBondSymbol "XYZ" = false ∧ "XYZ" ≠ "" ∧
    mkBond "XYZ" (some .USD) true = .error (.invalidCUSIP "XYZ") ∧
    mkBond "XYZ" (some .USD) false = .ok (.bond "XYZ" .USD) :=
  ⟨by decide, by decide, (c4_amended_bond_validation "XYZ" .USD (by decide) (by decide)).1,
   (c4_amended_bond_validation "XYZ" .USD (by decide) (by decide)).2⟩

/- ### Claim C5: strike validation and quantization -/

/-- C5 (confirmed): with otherwise valid inputs, Option construction fails
with the strike validation error exactly when the strike is non-finite or
nonpositive (the guard is equivalent to "value at most 0" for finite strikes
and rejects every non-finite strike), and for every finite strike with
positive mantissa construction succeeds and the stored strike's value is the
input's value rounded to 3 decimal places, half to even. -/
theorem c5_strike_validation (u : String) (co : Option Currency) (c : Currency)
    (t : OptionType) (d : PyDate) (mult : Dec) (so : Option String)
    (hu : u ≠ "") (hmult : mult.isPosFinite = true)
    (hso : ∀ s, so = some s → s ≠ "") :
    (∀ k : Dec, k.isPosFinite = false →
      mkOption u co t d k mult so = .error (.invalidStrike k)) ∧
    (∀ m e : Int, (Dec.finite m e).isPosFinite = false ↔ (Dec.finite m e).valQ ≤ 0) ∧
    (∀ k : Dec, k.is_finite = false → k.isPosFinite = false) ∧
    (∀ m e : Int, 0 < m →
      (mkOption u (some c) t d (.finite m e) mult so).map (fun i => i.strike?.map Dec.valQ) =
        .ok (some (specRound 3 ((Dec.finite m e).valQ)))) := by
  refine ⟨fun k hk => ?_, fun m e => ?_, fun k hk => ?_, fun m e hm => ?_⟩
  · rw [mkOption, mkOptionAs.eq_def]
    simp [hu, hk]
  · simp only [Dec.isPosFinite, decide_eq_false_iff_not, not_lt, valQ_nonpos_iff]
  · cases k <;> simp_all [Dec.is_finite, Dec.isPosFinite]
  · have hk : (Dec.finite m e).isPosFinite = true := by simp [Dec.isPosFinite, hm]
    cases so with
    | none =>
      rw [mkOption, mkOptionAs_none false u (some c) t d _ _ hu hk hmult,
          checkBase_some _ c (occSymbol_ne_empty u d t _)]
      simp [Except.map, Instrument.strike?, quantizeStrike, quantize_valQ]
    | some s =>
      rw [mkOption, mkOptionAs_some false u (some c) t d _ _ s hu hk hmult,
          checkBase_some _ c (hso s rfl)]
      simp [Except.map, Instrument.strike?, quantizeStrike, quantize_valQ]

/-- C5 (witness): strike -1 is rejected with the strike error; strike 1.0005
is accepted and stored as its half-even 3-decimal rounding. -/
theorem c5_witness :
    mkOption "AAPL" (some .USD) .PUT ⟨2021, 1, 15⟩ (.finite (-1) 0) (.finite 100 0) none =
      .error (.invalidStrike (.finite (-1) 0)) ∧
    (mkOption "AAPL" (some .USD) .PUT ⟨2021, 1, 15⟩ (.finite 10005 (-4)) (.finite 100 0)
        none).map (fun i => i.strike?.map Dec.valQ) =
      .ok (some (specRound 3 ((Dec.finite 10005 (-4)).valQ))) := by
  have h := c5_strike_validation "AAPL" (some .USD) .USD .PUT ⟨2021, 1, 15⟩
    (.finite 100 0) none (by decide) (by decide) (fun s hs => Option.noConfusion hs)
  exact ⟨h.1 _ (by decide), h.2.2.2 10005 (-4) (by decide)⟩

/- ### Claim C6: ordering by symbol -/

/-- C6 (counterexample): the derived comparison operators do not form a total
order — two constructible stocks sharing the symbol "A" but with different
currencies are unrelated by the derived less-or-equal in either direction
(totality fails), and both are greater-or-equal to each other while unequal
(antisymmetry of the derived greater-or-equal fails). -/
theorem c6_counterexample :
    mkStock "A" (some .USD) = .ok (.stock "A" .USD) ∧
    mkStock "A" (some .EUR) = .ok (.stock "A" .EUR) ∧
    pyLe (Instrument.stock "A" .USD) (Instrument.stock "A" .EUR) = false ∧
    pyLe (Instrument.stock "A" .EUR) (Instrument.stock "A" .USD) = false ∧
    pyGe (Instrument.stock "A" .USD) (Instrument.stock "A" .EUR) = true ∧
    pyGe (Instrument.stock "A" .EUR) (Instrument.stock "A" .USD) = true ∧
    (Instrument.stock "A" .USD) ≠ (Instrument.stock "A" .EUR) :=
  ⟨rfl, rfl, by decide, by decide, by decide, by decide, by decide⟩

/-- C6 (amended): the comparator orders instruments of any kinds purely by
lexicographic symbol comparison; the strict comparison is irreflexive and
transitive, and mutual incomparability coincides with symbol equality, so it
is a strict weak order — sufficient for sorting mixed-kind collections — but
the relations derived by total_ordering are not a total order when distinct
instruments share a symbol. -/
theorem c6_amended_ordering :
    (∀ a b : Instrument, strLt a.symbol b.symbol = true → pyLt a b = true) ∧
    (∀ a : Instrument, pyLt a a = false) ∧
    (∀ a b c : Instrument, pyLt a b = true → pyLt b c = true → pyLt a c = true) ∧
    (∀ a b : Instrument, pyLt a b = false → pyLt b a = false → a.symbol = b.symbol) :=
  ⟨fun _ _ h => h, fun _ => charListLt_irrefl _,
   fun _ _ _ h1 h2 => charListLt_trans h1 h2, fun _ _ h1 h2 => strLt_symbol_eq h1 h2⟩

/-- C6 (witness): the symbol ordering applied across kinds at concrete
instruments. -/
theorem c6_witness :
    pyLt (Instrument.stock "AAPL" .USD) (Instrument.forex "USDEUR" .EUR .USD) = true ∧
    (Instrument.stock "X" .USD).symbol = (Instrument.bond "X" .EUR).symbol :=
  ⟨c6_amended_ordering.1 _ _ (by decide),
   c6_amended_ordering.2.2.2 _ _ (by decide) (by decide)⟩

/- ### Claim C7: Forex construction -/

/-- C7 (confirmed): Forex construction with identical base and quote
currencies fails with the identical-currencies validation error; with any two
distinct currencies it succeeds, the symbol is the base code concatenated with
the quote code, the quote-currency accessor returns the inherited currency
field, and the base-currency accessor returns the separately stored base. -/
theorem c7_forex (c c1 c2 : Currency) (hne : c1 ≠ c2) :
    mkForex (some c) (some c) = .error (.identicalForexCurrencies (some c) (some c)) ∧
    (mkForex (some c1) (some c2)).map
        (fun i => (i.symbol, i.quoteCurrency?, i.baseCurrency?, i.currency)) =
      .ok (c1.name ++ c2.name, some c2, some c1, c2) := by
  constructor
  · rw [mkForex, if_pos rfl]
  · have hns : c1.name ++ c2.name ≠ "" := by cases c1 <;> cases c2 <;> decide
    rw [mkForex, if_neg (fun h => hne (Option.some.inj h)), checkBase_some _ _ hns]
    rfl

/-- C7 (witness): Forex(USD, USD) fails; Forex(USD, EUR) has symbol "USDEUR",
quote currency EUR and base currency USD. -/
theorem c7_witness :
    mkForex (some .USD) (some .USD) =
      .error (.identicalForexCurrencies (some .USD) (some .USD)) ∧
    (mkForex (some .USD) (some .EUR)).map
        (fun i => (i.symbol, i.quoteCurrency?, i.baseCurrency?, i.currency)) =
      .ok ("USDEUR", some .EUR, some .USD, .EUR) := by
  have h := c7_forex .USD .USD .EUR (by decide)
  refine ⟨h.1, ?_⟩
  rw [h.2]
  rfl

/- ### Claim C8: multiplier quantization -/

/-- C8 (confirmed): the multiplier quantization helper rounds any finite
decimal value to the nearest 0.1 step half to even (proved against the
spec-side rational rounding), and in particular 100.04 and 100.05 both
quantize to 100.0 (the tie goes to the even tenth). -/
theorem c8_multiplier_quantization :
    (∀ m e : Int, (quantizeMultiplier (.finite m e)).valQ =
      specRound 1 ((Dec.finite m e).valQ)) ∧
    quantizeMultiplier (.finite 10004 (-2)) = .finite 1000 (-1) ∧
    quantizeMultiplier (.finite 10005 (-2)) = .finite 1000 (-1) ∧
    (Dec.finite 1000 (-1)).valQ = 100 := by
  refine ⟨fun m e => quantize_valQ 1 m e, by decide, by decide, ?_⟩
  show ((1000 : Int) : ℚ) * (10 : ℚ) ^ (-1 : Int) = 100
  rw [zpow_neg, zpow_one]
  norm_num

/- ### Claim C9: base construction contract -/

/-- C9 (counterexample): an absent quote currency on Forex does not fail with
a validation error — evaluating the currency's name on None crashes with an
attribute error before any validation can run. -/
theorem c9_counterexample :
    mkForex (some .USD) none = .error .attributeNoneName ∧
    ConstructionError.isValidation .attributeNoneName = false :=
  ⟨rfl, rfl⟩

/-- C9 (amended): Stock construction succeeds for every non-empty symbol and
present currency, rendering as its symbol with multiplier 1; for Stock, Bond,
Option, FutureOption and Future, an empty symbol or an absent currency makes
construction fail with a validation error; for Forex, an absent currency also
aborts construction before any instance exists, but with an attribute-access
crash rather than a validation error — except when both currencies are absent,
which trips the identical-currencies validation instead. -/
theorem c9_amended_construction_errors :
    (∀ s c, s ≠ "" →
      mkStock s (some c) = .ok (.stock s c) ∧
      (Instrument.stock s c).pyStr = s ∧
      (Instrument.stock s c).multiplier = .finite 1 0) ∧
    (∀ co, mkStock "" co = .error .emptySymbol) ∧
    (∀ s, s ≠ "" → mkStock s none = .error .missingCurrency) ∧
    (∀ co, mkBond "" co false = .error .emptySymbol) ∧
    (∀ co, mkBond "" co true = .error (.invalidCUSIP "")) ∧
    (∀ s, s ≠ "" → validBondSymbol s = true → mkBond s none = .error .missingCurrency) ∧
    (∀ u co t d k mult, u ≠ "" → Dec.isPosFinite k = true → Dec.isPosFinite mult = true →
      mkOption u co t d k mult (some "") = .error .emptySymbol) ∧
    (∀ u t d k mult, u ≠ "" → Dec.isPosFinite k = true → Dec.isPosFinite mult = true →
      mkOption u none t d k mult none = .error .missingCurrency) ∧
    (∀ u co t d k mult, u ≠ "" → Dec.isPosFinite k = true → Dec.isPosFinite mult = true →
      mkFutureOption "" u co t d k mult = .error .emptySymbol) ∧
    (∀ s u t d k mult, s ≠ "" → u ≠ "" → Dec.isPosFinite k = true → Dec.isPosFinite mult = true →
      mkFutureOption s u none t d k mult = .error .missingCurrency) ∧
    (∀ co mult d, Dec.isPosFinite mult = true → mkFuture "" co mult d = .error .emptySymbol) ∧
    (∀ s mult d, s ≠ "" → Dec.isPosFinite mult = true →
      mkFuture s none mult d = .error .missingCurrency) ∧
    (∀ b, mkForex (some b) none = .error .attributeNoneName) ∧
    (∀ q, mkForex none (some q) = .error .attributeNoneName) ∧
    (mkForex none none = .error (.identicalForexCurrencies none none)) ∧
    (ConstructionError.isValidation .attributeNoneName = false) ∧
    (∀ err : ConstructionError, err ≠ .attributeNoneName → err.isValidation = true) := by
  refine ⟨?_, ?_, ?_, ?_, ?_, ?_, ?_, ?_, ?_, ?_, ?_, ?_, ?_, ?_, ?_, rfl, ?_⟩
  · intro s c hs
    exact ⟨by rw [mkStock, checkBase_some s c hs]; rfl, rfl, rfl⟩
  · intro co
    rfl
  · intro s hs
    rw [mkStock, checkBase_none s hs]
    rfl
  · intro co
    rfl
  · intro co
    rfl
  · intro s hs hv
    rw [mkBond]
    simp only [hv, Bool.not_true, Bool.and_false, if_neg Bool.false_ne_true]
    rw [checkBase_none s hs]
    rfl
  · intro u co t d k mult hu hk hm
    rw [mkOption, mkOptionAs_some false u co t d k mult "" hu hk hm, checkBase_empty]
    rfl
  · intro u t d k mult hu hk hm
    rw [mkOption, mkOptionAs_none false u none t d k mult hu hk hm,
        checkBase_none _ (occSymbol_ne_empty u d t k)]
    rfl
  · intro u co t d k mult hu hk hm
    rw [mkFutureOption, mkOptionAs_some true u co t d k mult "" hu hk hm, checkBase_empty]
    rfl
  · intro s u t d k mult hs hu hk hm
    rw [mkFutureOption, mkOptionAs_some true u none t d k mult s hu hk hm,
        checkBase_none s hs]
    rfl
  · intro co mult d hm
    rw [mkFuture]
    simp only [hm, Bool.not_true, if_neg Bool.false_ne_true]
    rfl
  · intro s mult d hs hm
    rw [mkFuture]
    simp only [hm, Bool.not_true, if_neg Bool.false_ne_true]
    rw [checkBase_none s hs]
    rfl
  · intro b
    rfl
  · intro q
    rfl
  · rfl
  · intro err hne
    cases err <;> simp_all [ConstructionError.isValidation]

/-- C9 (witness): concrete instances of the construction contract. -/
theorem c9_witness :
    mkStock "AAPL" (some .USD) = .ok (.stock "AAPL" .USD) ∧
    (Instrument.stock "AAPL" .USD).pyStr = "AAPL" ∧
    (Instrument.stock "AAPL" .USD).multiplier = .finite 1 0 ∧
    mkStock "" (some .USD) = .error .emptySymbol ∧
    mkStock "AAPL" none = .error .missingCurrency ∧
    mkOption "AAPL" (some .USD) .PUT ⟨2021, 1, 15⟩ (.finite 150 0) (.finite 100 0) (some "") =
      .error .emptySymbol ∧
    mkForex (some .USD) none = .error .attributeNoneName := by
  obtain ⟨h1, h2, h3, h4, h5, h6, h7, h8, h9, h10, h11, h12, h13, h14, h15, h16, h17⟩ :=
    c9_amended_construction_errors
  exact ⟨(h1 "AAPL" .USD (by decide)).1, (h1 "AAPL" .USD (by decide)).2.1,
    (h1 "AAPL" .USD (by decide)).2.2, h2 (some .USD), h3 "AAPL" (by decide),
    h7 "AAPL" (some .USD) .PUT ⟨2021, 1, 15⟩ (.finite 150 0) (.finite 100 0)
      (by decide) (by decide) (by decide), h13 .USD⟩

/- ### Claim C10: FutureOption construction -/

/-- C10 (confirmed): FutureOption stores the caller's symbol exactly and never
derives one; field for field it behaves exactly like Option called with that
explicit symbol (so the whole validation pipeline and the strike/multiplier
quantization are shared), and it fails on an empty underlying, a non-positive
or non-finite strike, or a non-positive or non-finite multiplier just as
Option does. -/
theorem c10_future_option (s u : String) (co : Option Currency) (c : Currency)
    (t : OptionType) (d : PyDate) (k mult : Dec)
    (hs : s ≠ "") (hu : u ≠ "") (hk : Dec.isPosFinite k = true)
    (hm : Dec.isPosFinite mult = true) :
    mkFutureOption s u (some c) t d k mult =
      .ok (.futureOption s c u t d (quantizeStrike k) (quantizeMultiplier mult)) ∧
    (mkFutureOption s u co t d k mult).map instrFields =
      (mkOption u co t d k mult (some s)).map instrFields ∧
    (∀ co2 t2 d2 k2 m2, mkFutureOption s "" co2 t2 d2 k2 m2 = .error .emptyUnderlying) ∧
    (∀ k2 : Dec, k2.isPosFinite = false →
      mkFutureOption s u co t d k2 mult = .error (.invalidStrike k2)) ∧
    (∀ m2 : Dec, m2.isPosFinite = false →
      mkFutureOption s u co t d k m2 = .error (.invalidMultiplier m2)) := by
  refine ⟨?_, ?_, fun co2 t2 d2 k2 m2 => rfl, fun k2 hk2 => ?_, fun m2 hm2 => ?_⟩
  · rw [mkFutureOption, mkOptionAs_some true u (some c) t d k mult s hu hk hm,
        checkBase_some _ c hs]
    rfl
  · rw [mkFutureOption, mkOption, mkOptionAs_some true u co t d k mult s hu hk hm,
        mkOptionAs_some false u co t d k mult s hu hk hm]
    cases hcb : checkBase s co with
    | error err => simp [Except.map]
    | ok cc =>
      simp [Except.map, instrFields, Instrument.symbol, Instrument.currency,
        Instrument.underlying?, Instrument.optionType?, Instrument.expiration?,
        Instrument.strike?, Instrument.multiplier]
  · rw [mkFutureOption, mkOptionAs.eq_def]
    simp [hu, hk2]
  · rw [mkFutureOption, mkOptionAs.eq_def]
    simp [hu, hk, hm2]

/-- C10 (witness): a concrete FutureOption stores its explicit symbol and the
quantized strike and multiplier; an empty underlying is rejected. -/
theorem c10_witness :
    mkFutureOption "GCJ1 C1900" "GC" (some .USD) .CALL ⟨2021, 4, 27⟩
        (.finite 1900 0) (.finite 100 0) =
      .ok (.futureOption "GCJ1 C1900" .USD "GC" .CALL ⟨2021, 4, 27⟩
        (.finite 1900000 (-3)) (.finite 1000 (-1))) ∧
    mkFutureOption "GCJ1 C1900" "" none .CALL ⟨2021, 4, 27⟩ (.finite 1900 0) (.finite 100 0) =
      .error .emptyUnderlying := by
  have h := c10_future_option "GCJ1 C1900" "GC" (some .USD) .USD .CALL ⟨2021, 4, 27⟩
    (.finite 1900 0) (.finite 100 0) (by decide) (by decide) (by decide) (by decide)
  refine ⟨?_, h.2.2.1 none .CALL ⟨2021, 4, 27⟩ (.finite 1900 0) (.finite 100 0)⟩
  rw [h.1]
  rfl
